import Mathlib

/-!
Verification of the AuraStream result-caching and asynchronous job-lifecycle
subsystem, shallowly embedded in Lean.

Python strings are modeled as `List Char` over the ASCII fragment (the cache
normalization, job-id validation and length checks in the source act
characterwise, so the ASCII restriction of `str.lower` / `\s` is faithful for
every property stated here).  Timestamps (`datetime.utcnow().timestamp()`)
are modeled as natural numbers counting epoch seconds.  DynamoDB tables and
the S3 bucket are modeled as association lists keyed by the item key; a
storage call that may raise is modeled by an explicitly injected outcome.
-/

namespace AuraStream

/-- The ASCII whitespace characters: Python's `\s` regex class and the
default strip set of `str.strip()`. -/
def isSpace (c : Char) : Bool :=
  c = ' ' || c = '\t' || c = '\n' || c = '\r' || c = '\x0b' || c = '\x0c'

/-- Python `str.lower()`, restricted to ASCII: maps A–Z to a–z and leaves
every other character unchanged. -/
def pyLower (c : Char) : Char :=
  match c with
  | 'A' => 'a' | 'B' => 'b' | 'C' => 'c' | 'D' => 'd' | 'E' => 'e'
  | 'F' => 'f' | 'G' => 'g' | 'H' => 'h' | 'I' => 'i' | 'J' => 'j'
  | 'K' => 'k' | 'L' => 'l' | 'M' => 'm' | 'N' => 'n' | 'O' => 'o'
  | 'P' => 'p' | 'Q' => 'q' | 'R' => 'r' | 'S' => 's' | 'T' => 't'
  | 'U' => 'u' | 'V' => 'v' | 'W' => 'w' | 'X' => 'x' | 'Y' => 'y'
  | 'Z' => 'z' | c => c

/-- Python `str.lstrip()`: drop leading whitespace. -/
def lstrip (l : List Char) : List Char := l.dropWhile isSpace

/-- Python `str.rstrip()`: drop trailing whitespace. -/
def rstrip : List Char → List Char
  | [] => []
  | c :: cs =>
    match rstrip cs with
    | [] => if isSpace c then [] else [c]
    | r => c :: r

/-- Python `str.strip()`: drop leading and trailing whitespace. -/
def pyStrip (l : List Char) : List Char := rstrip (lstrip l)

/-- `re.sub(r'\s+', ' ', ·)`: replace each maximal whitespace run by a single
space character. -/
def collapseWs : List Char → List Char
  | [] => []
  | c :: cs =>
    if isSpace c then ' ' :: collapseWs (cs.dropWhile isSpace)
    else c :: collapseWs cs
termination_by l => l.length
decreasing_by
  · simp only [List.length_cons]
    exact Nat.lt_succ_of_le (by
      induction cs with
      | nil => simp [List.dropWhile]
      | cons a l ih =>
        by_cases h : isSpace a
        · simp only [List.dropWhile_cons, h, if_true, List.length_cons]
          exact Nat.le_succ_of_le ih
        · simp [List.dropWhile_cons, h])
  · simp

/-- `SentimentCache._normalize_text`: lowercase the text, strip the ends,
then collapse every interior whitespace run to one space (source order:
`text.lower().strip()` followed by `re.sub(r'\s+', ' ', ·)`). -/
def normalize_text (text : List Char) : List Char :=
  collapseWs (pyStrip (text.map pyLower))

/-- The maximal whitespace-free words of a text, in order (the semantics of
Python `str.split()` with no arguments).  This is the specification-side
canonical form used to state what normalization preserves. -/
def words : List Char → List (List Char)
  | [] => []
  | c :: cs =>
    if isSpace c then words cs
    else (c :: cs.takeWhile (fun d => !isSpace d)) ::
      words (cs.dropWhile (fun d => !isSpace d))
termination_by l => l.length
decreasing_by
  · simp
  · simp only [List.length_cons]
    exact Nat.lt_succ_of_le (by
      induction cs with
      | nil => simp [List.dropWhile]
      | cons a l ih =>
        by_cases h : (fun d => !isSpace d) a
        · simp only [List.dropWhile_cons, h, if_true, List.length_cons]
          exact Nat.le_succ_of_le ih
        · simp [List.dropWhile_cons, h])

/-- Join words with single spaces. -/
def joinWords : List (List Char) → List Char
  | [] => []
  | [w] => w
  | w :: ws => w ++ ' ' :: joinWords ws


/-- Specification-side helper: the suffix a whitespace run contributes to a
collapsed text, given the remaining words. -/
def wordsTail (l : List Char) : List Char :=
  if words l = [] then [] else ' ' :: joinWords (words l)

/-! ### UTF-8 encoding and SHA-256 (`.encode('utf-8')`, `hashlib.sha256`)

Bytes and 32-bit words are natural numbers reduced modulo `2 ^ 8` / `2 ^ 32`
where overflow can occur. -/

/-- UTF-8 encoding of a single character (code point to byte list). -/
def utf8Char (c : Char) : List Nat :=
  let n := c.toNat
  if n < 128 then [n]
  else if n < 2048 then
    [192 ||| (n >>> 6), 128 ||| (n &&& 63)]
  else if n < 65536 then
    [224 ||| (n >>> 12), 128 ||| ((n >>> 6) &&& 63), 128 ||| (n &&& 63)]
  else
    [240 ||| (n >>> 18), 128 ||| ((n >>> 12) &&& 63),
      128 ||| ((n >>> 6) &&& 63), 128 ||| (n &&& 63)]

/-- `str.encode('utf-8')`: the byte sequence of a text. -/
def utf8Encode (l : List Char) : List Nat :=
  (l.map utf8Char).flatten

/-- Truncate to a 32-bit word. -/
def w32 (x : Nat) : Nat := x % 4294967296

/-- 32-bit right rotation. -/
def rotr (n x : Nat) : Nat := w32 ((x >>> n) ||| (x <<< (32 - n)))

def sigmaSmall0 (x : Nat) : Nat := rotr 7 x ^^^ rotr 18 x ^^^ (x >>> 3)

def sigmaSmall1 (x : Nat) : Nat := rotr 17 x ^^^ rotr 19 x ^^^ (x >>> 10)

def sigmaBig0 (x : Nat) : Nat := rotr 2 x ^^^ rotr 13 x ^^^ rotr 22 x

def sigmaBig1 (x : Nat) : Nat := rotr 6 x ^^^ rotr 11 x ^^^ rotr 25 x

def chFn (x y z : Nat) : Nat := (x &&& y) ^^^ ((x ^^^ 4294967295) &&& z)

def majFn (x y z : Nat) : Nat := (x &&& y) ^^^ (x &&& z) ^^^ (y &&& z)

/-- The SHA-256 round constants. -/
def sha256K : List Nat :=
  [1116352408, 1899447441, 3049323471, 3921009573, 961987163,
   1508970993, 2453635748, 2870763221, 3624381080, 310598401,
   607225278, 1426881987, 1925078388, 2162078206, 2614888103,
   3248222580, 3835390401, 4022224774, 264347078, 604807628,
   770255983, 1249150122, 1555081692, 1996064986, 2554220882,
   2821834349, 2952996808, 3210313671, 3336571891, 3584528711,
   113926993, 338241895, 666307205, 773529912, 1294757372,
   1396182291, 1695183700, 1986661051, 2177026350, 2456956037,
   2730485921, 2820302411, 3259730800, 3345764771, 3516065817,
   3600352804, 4094571909, 275423344, 430227734, 506948616,
   659060556, 883997877, 958139571, 1322822218, 1537002063,
   1747873779, 1955562222, 2024104815, 2227730452, 2361852424,
   2428436474, 2756734187, 3204031479, 3329325298]

/-- The SHA-256 initial hash state. -/
def sha256H0 : List Nat :=
  [1779033703, 3144134277, 1013904242, 2773480762,
   1359893119, 2600822924, 528734635, 1541459225]

/-- Big-endian 8-byte encoding of a length in bits. -/
def be64 (n : Nat) : List Nat :=
  (List.range 8).map (fun i => (n >>> (56 - 8 * i)) % 256)

/-- SHA-256 message padding: `0x80`, zeros to 56 mod 64, 64-bit bit length. -/
def padMessage (msg : List Nat) : List Nat :=
  let zeros := (64 + 56 - ((msg.length + 1) % 64)) % 64
  msg ++ 128 :: List.replicate zeros 0 ++ be64 (msg.length * 8)

/-- Split a byte sequence into 64-byte blocks. -/
def toBlocks (l : List Nat) : List (List Nat) :=
  if l = [] then [] else l.take 64 :: toBlocks (l.drop 64)
termination_by l.length
decreasing_by
  rename_i h
  have hpos : 0 < l.length := List.length_pos.mpr h
  simp only [List.length_drop]
  omega

/-- Combine bytes, four at a time big-endian, into 32-bit words. -/
def bytesToWords : List Nat → List Nat
  | b0 :: b1 :: b2 :: b3 :: rest =>
    ((((b0 <<< 8) ||| b1) <<< 8 ||| b2) <<< 8 ||| b3) :: bytesToWords rest
  | _ => []

/-- Extend the 16 block words by `n` schedule words. -/
def extendSchedule : Nat → List Nat → List Nat
  | 0, ws => ws
  | n + 1, ws =>
    let t := ws.length
    extendSchedule n (ws ++ [w32 (sigmaSmall1 (ws.getD (t - 2) 0) +
      ws.getD (t - 7) 0 + sigmaSmall0 (ws.getD (t - 15) 0) + ws.getD (t - 16) 0)])

/-- One SHA-256 compression round on the 8-word working state. -/
def sha256Round (st : List Nat) (k w : Nat) : List Nat :=
  match st with
  | [a, b, c, d, e, f, g, h] =>
    let t1 := w32 (h + sigmaBig1 e + chFn e f g + k + w)
    let t2 := w32 (sigmaBig0 a + majFn a b c)
    [w32 (t1 + t2), a, b, c, w32 (d + t1), e, f, g]
  | st => st

/-- Compress one 64-byte block into the running hash state. -/
def compressBlock (h : List Nat) (block : List Nat) : List Nat :=
  let ws := extendSchedule 48 (bytesToWords block)
  let st := (sha256K.zip ws).foldl (fun s kw => sha256Round s kw.1 kw.2) h
  (h.zip st).map (fun p => w32 (p.1 + p.2))

/-- SHA-256 of a byte sequence, as eight 32-bit words. -/
def sha256Words (msg : List Nat) : List Nat :=
  (toBlocks (padMessage msg)).foldl compressBlock sha256H0

/-- The lowercase hex digit for a value below 16 (codes 48–57, 97–102). -/
def hexDigit (n : Nat) : Char :=
  if n < 10 then Char.ofNat (48 + n) else Char.ofNat (87 + n)

def wordToHex (w : Nat) : List Char :=
  (List.range 8).map (fun i => hexDigit ((w >>> (28 - 4 * i)) % 16))

/-- `hashlib.sha256(·).hexdigest()`: the 64-character lowercase hex digest. -/
def sha256hex (msg : List Nat) : List Char :=
  ((sha256Words msg).map wordToHex).flatten

/-- `SentimentCache._generate_cache_key`: SHA-256 hex digest of the UTF-8
encoding of the normalized text. -/
def generate_cache_key (text : List Char) : List Char :=
  sha256hex (utf8Encode (normalize_text text))
/-! ### Constants (`src/utils/constants.py`) -/

def MAX_TEXT_LENGTH_SYNC : Nat := 5000

def MAX_TEXT_LENGTH_ASYNC : Nat := 1048576

def CACHE_TTL_DEFAULT : Nat := 86400

/-! ### Python values, dicts and key-value tables

Handler payloads are Python dicts; only their fields and truthiness are
observed by the embedded code, so values are modeled as a small JSON-like
type.  DynamoDB tables / the S3 bucket are association lists in which a
`put` prepends and a `get` takes the first (most recent) binding. -/

inductive PyVal where
  | str : List Char → PyVal
  | bool : Bool → PyVal
  | num : Nat → PyVal
  | dict : List (String × PyVal) → PyVal
deriving Repr

/-- Python truthiness for the modeled values (`if x:`). -/
def PyVal.truthy : PyVal → Bool
  | .str s => !s.isEmpty
  | .bool b => b
  | .num n => decide (n ≠ 0)
  | .dict d => !d.isEmpty

/-- Truthiness of an optional value (`None` is falsy). -/
def optTruthy : Option PyVal → Bool
  | none => false
  | some v => v.truthy

/-- First binding for a key (DynamoDB `get_item` / S3 `get_object`). -/
def tableGet {κ α : Type} [DecidableEq κ] (tbl : List (κ × α)) (k : κ) :
    Option α :=
  (tbl.find? (fun p => decide (p.1 = k))).map Prod.snd

/-- Overwriting put (DynamoDB `put_item` / S3 `put_object`). -/
def tablePut {κ α : Type} (tbl : List (κ × α)) (k : κ) (v : α) :
    List (κ × α) :=
  (k, v) :: tbl

/-- Python `dict.get(key)`: the value bound to a key, if present. -/
def dictGet (d : List (String × PyVal)) (k : String) : Option PyVal :=
  (d.find? (fun p => decide (p.1 = k))).map Prod.snd

/-! ### Result cache (`src/cache/sentiment_cache.py`)

An entry of the `SentimentCache` DynamoDB table, as written by
`store_result`: the `sentiment_result` payload, the `created_at` marker and
the `ttl` attribute holding the absolute expiry instant in epoch seconds
(`Option` because `_is_expired` reads it with `item.get('ttl')`). -/

structure CacheItem where
  sentiment_result : PyVal
  created_at : Nat
  ttl : Option Nat
deriving Repr

def CacheTable := List (List Char × CacheItem)

/-- `SentimentCache._is_expired`: a missing or falsy (zero) `ttl` attribute
counts as expired, otherwise the entry is expired once `now > ttl`. -/
def is_expired (item : CacheItem) (now : Nat) : Bool :=
  match item.ttl with
  | none => true
  | some t => if t = 0 then true else decide (now > t)

/-- The body of the `try` block of `SentimentCache.get_cached_result`;
`raises = true` models the backing client raising an arbitrary exception
during the read. -/
def get_cached_result_body (tbl : CacheTable) (raises : Bool)
    (text : List Char) (now : Nat) : Except Unit (Option PyVal) :=
  if raises then .error ()
  else
    match tableGet tbl (generate_cache_key text) with
    | some item =>
      if is_expired item now then .ok none
      else .ok (some item.sentiment_result)
    | none => .ok none

/-- `SentimentCache.get_cached_result`: the `except Exception` clause turns
any storage failure into a miss (`None`). -/
def get_cached_result (tbl : CacheTable) (raises : Bool)
    (text : List Char) (now : Nat) : Option PyVal :=
  match get_cached_result_body tbl raises text now with
  | .ok v => v
  | .error _ => none

/-- `ttl_seconds = ttl or CACHE_TTL_DEFAULT`: Python `or` replaces a falsy
left operand, so both `None` and `0` fall back to the default TTL. -/
def ttlSeconds (ttl : Option Nat) : Nat :=
  match ttl with
  | none => CACHE_TTL_DEFAULT
  | some t => if t = 0 then CACHE_TTL_DEFAULT else t

/-- `SentimentCache.store_result`: writes the entry with
`ttl = now + ttl_seconds` and returns `true`; a raising backing store leaves
the table unchanged and returns `false` (the `except` clause). -/
def store_result (tbl : CacheTable) (raises : Bool) (text : List Char)
    (result : PyVal) (ttl : Option Nat) (now : Nat) : CacheTable × Bool :=
  if raises then (tbl, false)
  else
    (tablePut tbl (generate_cache_key text)
      { sentiment_result := result
        created_at := now
        ttl := some (now + ttlSeconds ttl) }, true)

/-! ### API responses

The fields of an API Gateway response the embedded handlers read or
produce.  Fields a given response shape does not carry are `none`; the
`request_id` and response timestamp are identical for identical handler
inputs and are left out of the projection. -/

structure ApiResponse where
  statusCode : Nat
  error_code : Option String := none
  message : Option String := none
  body_job_id : Option String := none
  body_status : Option String := none
  body_created_at : Option Nat := none
  body_completed_at : Option Nat := none
  body_result : Option PyVal := none
  body_error : Option PyVal := none
  body_source_id : Option String := none
  body_estimated_completion : Option Nat := none
  pii_detected : Option Bool := none
  cache_hit : Option Bool := none
deriving Repr

/-- `_create_error_response` with `ERROR_CODES["VALIDATION_ERROR"] = 400`. -/
def validationError (msg : String) : ApiResponse :=
  { statusCode := 400, error_code := some "VALIDATION_ERROR", message := some msg }

/-- `_create_error_response` with `ERROR_CODES["NOT_FOUND"] = 404`. -/
def notFoundError (msg : String) : ApiResponse :=
  { statusCode := 404, error_code := some "NOT_FOUND", message := some msg }

/-- `_create_error_response` with `ERROR_CODES["INTERNAL_ERROR"] = 500`. -/
def internalError (msg : String) : ApiResponse :=
  { statusCode := 500, error_code := some "INTERNAL_ERROR", message := some msg }

/-! ### Job store (`_update_job_status`, shared verbatim by
`src/handlers/update_job_status_handler.py` and
`src/handlers/process_document_handler.py`)

A DynamoDB job item; every attribute is optional because `update_item`
creates or updates items attribute by attribute. -/

structure JobItem where
  job_id : Option String := none
  status : Option String := none
  created_at : Option Nat := none
  updated_at : Option Nat := none
  completed_at : Option Nat := none
  source_id : Option String := none
  text_length : Option Nat := none
  options : Option PyVal := none
  request_id : Option String := none
  result : Option PyVal := none
  error : Option PyVal := none
deriving Repr

def JobTable := List (String × JobItem)

/-- `_update_job_status`: builds `SET #status = :status, #updated_at = ...`,
appending `result`/`completed_at` exactly when `result` is truthy and
`error` exactly when `error` is truthy, then issues `update_item` (an upsert
on the base item).  A raising client is absorbed into `false`. -/
def update_job_status (tbl : JobTable) (raises : Bool) (job_id : String)
    (status : String) (result error : Option PyVal) (now : Nat) :
    JobTable × Bool :=
  if raises then (tbl, false)
  else
    let base := (tableGet tbl job_id).getD {}
    let it1 := { base with status := some status, updated_at := some now }
    let it2 :=
      if optTruthy result then
        { it1 with result := result, completed_at := some now }
      else it1
    let it3 := if optTruthy error then { it2 with error := error } else it2
    (tablePut tbl job_id it3, true)

/-! ### Status handler (`src/handlers/status_handler.py`) -/

def isHexLower (c : Char) : Bool :=
  ('0' ≤ c && c ≤ '9') || ('a' ≤ c && c ≤ 'f')

/-- Consume `n` lowercase hex digits. -/
def expectHex : Nat → List Char → Option (List Char)
  | 0, s => some s
  | n + 1, c :: cs => if isHexLower c then expectHex n cs else none
  | _ + 1, [] => none

/-- Consume one hyphen. -/
def expectDash : List Char → Option (List Char)
  | '-' :: cs => some cs
  | _ => none

/-- The regex `^[0-9a-f]{8}-[0-9a-f]{4}-[0-9a-f]{4}-[0-9a-f]{4}-[0-9a-f]{12}$`
matched against a whole string. -/
def uuidMatch (s : List Char) : Bool :=
  ((((((((expectHex 8 s).bind expectDash).bind (expectHex 4)).bind
    expectDash).bind (expectHex 4)).bind expectDash).bind (expectHex 4)).bind
      expectDash).bind (expectHex 12) = some []

/-- `InputValidator.validate_job_id`: empty input fails, otherwise the UUID
regex is matched against the lowercased id (Python `$` also matches just
before a final newline). -/
def validate_job_id (job_id : List Char) : Bool :=
  if job_id.isEmpty then false
  else
    let s := job_id.map pyLower
    uuidMatch s ||
      (match s.getLast? with
       | some c => c = '\n' && uuidMatch s.dropLast
       | none => false)

/-- `status_handler._get_job_status`: a raising read is swallowed into
`None`, indistinguishable from an absent item. -/
def get_job_status (tbl : JobTable) (raises : Bool) (job_id : String) :
    Option JobItem :=
  if raises then none else tableGet tbl job_id

/-- `status_handler.lambda_handler`: path-parameter extraction, job-id
format validation, read, then response shaping.  A missing `status` or
`created_at` attribute on the stored item raises `KeyError` inside the
outer `try` and surfaces as the generic internal error. -/
def status_lambda_handler (tbl : JobTable) (readRaises : Bool)
    (path_job_id : Option String) : ApiResponse :=
  match path_job_id with
  | none => validationError "Job ID is required"
  | some jid =>
    if jid.isEmpty then validationError "Job ID is required"
    else if !validate_job_id jid.toList then
      validationError "Invalid job ID format"
    else
      match get_job_status tbl readRaises jid with
      | none => notFoundError "Job not found"
      | some item =>
        match item.status, item.created_at with
        | some st, some ca =>
          { statusCode := 200
            body_job_id := some jid
            body_status := some st
            body_created_at := some ca
            body_completed_at := item.completed_at
            body_result := item.result
            body_error := item.error
            body_source_id := item.source_id }
        | _, _ => internalError "An internal error occurred"

/-! ### Async admission (`src/handlers/async_handler.py`)

The three external resources an admission touches.  `secSafe` parameters
below stand for the outcome of `InputValidator.validate_text_security`, the
regex security gate the spec treats as an external collaborator. -/

structure World where
  jobTable : JobTable
  documents : List (String × List Char)
  executions : List String

/-- Which of the three external calls of an admission raise (for the
workflow trigger this also covers an unset `STEP_FUNCTION_ARN`). -/
structure AsyncFailures where
  jobPutRaises : Bool
  docPutRaises : Bool
  sfnRaises : Bool

structure AsyncRequest where
  text : List Char
  source_id : Option String
  options : Option (List (String × PyVal))

/-- Pydantic validation of `AsyncSentimentAnalysisRequest`: the
`max_length=1048576` field constraint on the raw text, then the
`validate_text` validator (`not v or not v.strip()` rejects, else the text
is stripped). -/
def parseAsyncRequest (rawText : List Char) (source_id : Option String)
    (options : Option (List (String × PyVal))) : Except Unit AsyncRequest :=
  if rawText.length > MAX_TEXT_LENGTH_ASYNC then .error ()
  else if (pyStrip rawText).isEmpty then .error ()
  else .ok { text := pyStrip rawText, source_id := source_id, options := options }

/-- `async_handler._store_job`: the full `PROCESSING` job item written at
admission (`request.options or {}` coerces absent options to `{}`). -/
def admissionJobItem (job_id : String) (req : AsyncRequest)
    (request_id : String) (now : Nat) : JobItem :=
  { job_id := some job_id
    status := some "PROCESSING"
    created_at := some now
    source_id := req.source_id
    text_length := some req.text.length
    options := some (.dict (req.options.getD []))
    request_id := some request_id }

def store_job (w : World) (raises : Bool) (job_id : String)
    (req : AsyncRequest) (request_id : String) (now : Nat) : World × Bool :=
  if raises then (w, false)
  else
    let tbl := tablePut w.jobTable job_id (admissionJobItem job_id req request_id now)
    ({ w with jobTable := tbl }, true)

/-- `async_handler._store_document`: S3 put under `documents/{job_id}.txt`. -/
def store_document (w : World) (raises : Bool) (job_id : String)
    (text : List Char) : World × Bool :=
  if raises then (w, false)
  else
    let docs := tablePut w.documents ("documents/" ++ job_id ++ ".txt") text
    ({ w with documents := docs }, true)

/-- `async_handler._start_step_function`: starts the execution named
`aurastream-{job_id}`. -/
def start_step_function (w : World) (raises : Bool) (job_id : String) :
    World × Bool :=
  if raises then (w, false)
  else ({ w with executions := ("aurastream-" ++ job_id) :: w.executions }, true)

/-- `_calculate_estimated_completion`: now + 30 s + 1 s per 1000 chars. -/
def calculate_estimated_completion (text : List Char) (now : Nat) : Nat :=
  now + 30 + text.length / 1000

/-- `async_handler.lambda_handler`: parse/validate, then job write →
document write → workflow trigger, aborting with the internal error at the
first failing step, else a 202 acceptance carrying the job id. -/
def async_lambda_handler (w : World) (f : AsyncFailures)
    (rawText : List Char) (source_id : Option String)
    (options : Option (List (String × PyVal))) (secSafe : Bool)
    (job_id request_id : String) (now : Nat) : World × ApiResponse :=
  match parseAsyncRequest rawText source_id options with
  | .error _ => (w, validationError "Invalid request data")
  | .ok req =>
    if !secSafe then
      (w, validationError "Text contains potentially malicious content")
    else if req.text.length > MAX_TEXT_LENGTH_ASYNC then
      (w, validationError "Text exceeds maximum length")
    else
      let (w1, ok1) := store_job w f.jobPutRaises job_id req request_id now
      if !ok1 then (w1, internalError "Failed to store job information")
      else
        let (w2, ok2) := store_document w1 f.docPutRaises job_id req.text
        if !ok2 then (w2, internalError "Failed to store document")
        else
          let (w3, ok3) := start_step_function w2 f.sfnRaises job_id
          if !ok3 then (w3, internalError "Failed to start processing")
          else
            (w3,
             { statusCode := 202
               body_job_id := some job_id
               body_status := some "PROCESSING"
               body_estimated_completion :=
                 some (calculate_estimated_completion req.text now) })

/-! ### Sync handler (`src/handlers/sync_handler.py`)

The external sentiment call is an excluded collaborator; its result enters
as an opaque `sentimentResult : PyVal` and the PII detector's
`pii_detected` flag as a boolean.  The handler's externally visible calls
are recorded as an event trace, in program order. -/

inductive SyncEvent where
  | cacheGet
  | piiCall
  | sentimentCall
  | cacheStore
deriving Repr, DecidableEq

structure SyncResult where
  cache : CacheTable
  response : ApiResponse
  events : List SyncEvent

/-- Pydantic validation of `SentimentAnalysisRequest` (sync): raw text at
most 5000 characters, then stripped and required non-empty. -/
def parseSyncRequest (rawText : List Char)
    (options : Option (List (String × PyVal))) :
    Except Unit (List Char × Option (List (String × PyVal))) :=
  if rawText.length > MAX_TEXT_LENGTH_SYNC then .error ()
  else if (pyStrip rawText).isEmpty then .error ()
  else .ok (pyStrip rawText, options)

/-- The PII gate `request.options and
request.options.get("include_pii_detection", True)`: an absent or empty
options dict short-circuits the conjunction to falsy, otherwise the option
defaults to on. -/
def runPiiGate (options : Option (List (String × PyVal))) : Bool :=
  match options with
  | none => false
  | some d =>
    if d.isEmpty then false
    else
      match dictGet d "include_pii_detection" with
      | some v => v.truthy
      | none => true

/-- The cache-miss tail of `sync_handler.lambda_handler`: optional PII
call, sentiment call, response assembly, cache store, 200 response.  The
response dict carried into the cache keeps the fields the embedded code
observes. -/
def sync_miss_path (tbl : CacheTable) (storeRaises : Bool)
    (text : List Char) (options : Option (List (String × PyVal)))
    (piiDetected : Bool) (sentimentResult : PyVal) (now : Nat) : SyncResult :=
  let runPii := runPiiGate options
  let pii := runPii && piiDetected
  let responseDict : PyVal :=
    .dict [("sentiment", sentimentResult), ("pii_detected", .bool pii),
      ("cache_hit", .bool false)]
  let (tbl2, _stored) := store_result tbl storeRaises text responseDict none now
  { cache := tbl2
    response := { statusCode := 200, pii_detected := some pii,
                  cache_hit := some false }
    events := [SyncEvent.cacheGet] ++
      (if runPii then [SyncEvent.piiCall] else []) ++
      [SyncEvent.sentimentCall, SyncEvent.cacheStore] }

/-- `sync_handler.lambda_handler`: parse, security gate, cache lookup
(`if cached_result:` is a truthiness test), then the hit or miss path. -/
def sync_lambda_handler (tbl : CacheTable) (getRaises storeRaises : Bool)
    (rawText : List Char) (options : Option (List (String × PyVal)))
    (secSafe piiDetected : Bool) (sentimentResult : PyVal) (now : Nat) :
    SyncResult :=
  match parseSyncRequest rawText options with
  | .error _ =>
    { cache := tbl, response := validationError "Invalid request data",
      events := [] }
  | .ok (text, opts) =>
    if !secSafe then
      { cache := tbl,
        response := validationError "Text contains potentially malicious content",
        events := [] }
    else
      let cached := get_cached_result tbl getRaises text now
      if optTruthy cached then
        { cache := tbl,
          response := { statusCode := 200, cache_hit := some true },
          events := [SyncEvent.cacheGet] }
      else
        sync_miss_path tbl storeRaises text opts piiDetected sentimentResult now

/-! ### Equation lemmas for the recursive text functions -/

theorem words_nil : words [] = [] := by simp [words]

theorem words_cons_space {c : Char} (cs : List Char) (h : isSpace c = true) :
    words (c :: cs) = words cs := by
  rw [words]
  simp [h]

theorem words_cons_nonspace {c : Char} (cs : List Char) (h : isSpace c = false) :
    words (c :: cs) =
      (c :: cs.takeWhile (fun d => !isSpace d)) ::
        words (cs.dropWhile (fun d => !isSpace d)) := by
  rw [words]
  simp [h]

theorem collapseWs_nil : collapseWs [] = [] := by simp [collapseWs]

theorem collapseWs_cons_space {c : Char} (cs : List Char) (h : isSpace c = true) :
    collapseWs (c :: cs) = ' ' :: collapseWs (cs.dropWhile isSpace) := by
  rw [collapseWs]
  simp [h]

theorem collapseWs_cons_nonspace {c : Char} (cs : List Char) (h : isSpace c = false) :
    collapseWs (c :: cs) = c :: collapseWs cs := by
  rw [collapseWs]
  simp [h]

theorem rstrip_cons_nonspace {c : Char} (cs : List Char) (h : isSpace c = false) :
    rstrip (c :: cs) = c :: rstrip cs := by
  cases hr : rstrip cs with
  | nil => simp [rstrip, hr, h]
  | cons a as => simp [rstrip, hr]

theorem rstrip_eq_nil_iff (l : List Char) : rstrip l = [] ↔ l.all isSpace := by
  induction l with
  | nil => simp [rstrip]
  | cons c cs ih =>
    cases hr : rstrip cs with
    | nil =>
      have hall : cs.all isSpace := ih.mp hr
      by_cases h : isSpace c <;> simp [rstrip, hr, h, hall]
    | cons a as =>
      have hall : cs.all isSpace = false := by
        cases hca : cs.all isSpace
        · rfl
        · rw [ih.mpr hca] at hr
          exact List.noConfusion hr
      simp [rstrip, hr, hall]

theorem words_eq_nil_iff (l : List Char) : words l = [] ↔ l.all isSpace := by
  induction l with
  | nil => simp [words_nil]
  | cons c cs ih =>
    by_cases h : isSpace c
    · rw [words_cons_space cs h]
      simp [h, ih]
    · rw [words_cons_nonspace cs (by simpa using h)]
      simp [h]

theorem words_head_ne_nil (l : List Char) (w : List Char) (ws : List (List Char))
    (h : words l = w :: ws) : w ≠ [] := by
  induction l with
  | nil => rw [words_nil] at h; exact absurd h (List.noConfusion)
  | cons c cs ih =>
    by_cases hc : isSpace c
    · rw [words_cons_space cs hc] at h
      exact ih h
    · rw [words_cons_nonspace cs (by simpa using hc)] at h
      cases h
      simp

theorem joinWords_words_ne_nil (l : List Char) (hne : words l ≠ []) :
    joinWords (words l) ≠ [] := by
  cases hw : words l with
  | nil => exact absurd hw hne
  | cons w ws =>
    have hwne := words_head_ne_nil l w ws hw
    cases ws with
    | nil => simpa [joinWords] using hwne
    | cons v vs =>
      simp [joinWords]

theorem lstrip_rstrip_comm (l : List Char) :
    lstrip (rstrip l) = rstrip (lstrip l) := by
  induction l with
  | nil => simp [lstrip, rstrip, List.dropWhile]
  | cons c cs ih =>
    by_cases h : isSpace c
    · cases hr : rstrip cs with
      | nil =>
        have h1 : rstrip (c :: cs) = [] := by simp [rstrip, hr, h]
        have hall : cs.all isSpace := (rstrip_eq_nil_iff cs).mp hr
        have h2 : lstrip cs = [] := by
          simp only [lstrip, List.dropWhile_eq_nil_iff]
          intro x hx
          exact List.all_eq_true.mp hall x hx
        have h3 : lstrip (c :: cs) = lstrip cs := by
          simp [lstrip, List.dropWhile_cons, h]
        rw [h1, h3, h2]
        rfl
      | cons a as =>
        have h1 : rstrip (c :: cs) = c :: rstrip cs := by simp [rstrip, hr]
        rw [h1]
        have h2 : lstrip (c :: rstrip cs) = lstrip (rstrip cs) := by
          simp [lstrip, List.dropWhile_cons, h]
        have h3 : lstrip (c :: cs) = lstrip cs := by
          simp [lstrip, List.dropWhile_cons, h]
        rw [h2, h3, ih]
    · have hb : isSpace c = false := by simpa using h
      rw [rstrip_cons_nonspace cs hb]
      have h2 : lstrip (c :: rstrip cs) = c :: rstrip cs := by
        simp [lstrip, List.dropWhile_cons, hb]
      have h3 : lstrip (c :: cs) = c :: cs := by
        simp [lstrip, List.dropWhile_cons, hb]
      rw [h2, h3, rstrip_cons_nonspace cs hb]

/-- Strip-then-collapse equals the single-space join of the text's words.
The second conjunct is the strengthening (collapse without leading strip)
that makes the induction go through. -/
theorem collapse_strip_eq_joinWords (l : List Char) :
    collapseWs (rstrip (lstrip l)) = joinWords (words l) ∧
    collapseWs (rstrip l) =
      l.takeWhile (fun d => !isSpace d) ++
        wordsTail (l.dropWhile (fun d => !isSpace d)) := by
  induction l with
  | nil =>
    constructor
    · simp [lstrip, rstrip, collapseWs, words_nil, joinWords, List.dropWhile]
    · simp [rstrip, collapseWs, wordsTail, words_nil, List.dropWhile, List.takeWhile]
  | cons c cs ih =>
    obtain ⟨ihM, ihP⟩ := ih
    by_cases h : isSpace c
    · constructor
      · have h1 : lstrip (c :: cs) = lstrip cs := by
          simp [lstrip, List.dropWhile_cons, h]
        rw [h1, words_cons_space cs h]
        exact ihM
      · have htw : (c :: cs).takeWhile (fun d => !isSpace d) = [] := by
          simp [List.takeWhile_cons, h]
        have hdw : (c :: cs).dropWhile (fun d => !isSpace d) = c :: cs := by
          simp [List.dropWhile_cons, h]
        rw [htw, hdw]
        cases hr : rstrip cs with
        | nil =>
          have h1 : rstrip (c :: cs) = [] := by simp [rstrip, hr, h]
          have hall : cs.all isSpace := (rstrip_eq_nil_iff cs).mp hr
          have hwnil : words (c :: cs) = [] :=
            (words_eq_nil_iff _).mpr (by simp [h, hall])
          rw [h1, collapseWs_nil]
          simp only [wordsTail, hwnil, if_true]
          simp
        | cons a as =>
          have h1 : rstrip (c :: cs) = c :: rstrip cs := by simp [rstrip, hr]
          rw [h1, collapseWs_cons_space _ h]
          rw [show (rstrip cs).dropWhile isSpace = lstrip (rstrip cs) from rfl,
            lstrip_rstrip_comm cs, ihM]
          have hne : words cs ≠ [] := by
            intro hw
            have hall := (words_eq_nil_iff cs).mp hw
            have hnil : rstrip cs = [] := (rstrip_eq_nil_iff cs).mpr hall
            rw [hnil] at hr
            exact List.noConfusion hr
          simp only [wordsTail, words_cons_space cs h, hne, if_false]
          simp
    · have hb : isSpace c = false := by simpa using h
      constructor
      · have h1 : lstrip (c :: cs) = c :: cs := by
          simp [lstrip, List.dropWhile_cons, hb]
        rw [h1, rstrip_cons_nonspace cs hb, collapseWs_cons_nonspace _ hb,
          words_cons_nonspace cs hb, ihP]
        cases hws : words (cs.dropWhile (fun d => !isSpace d)) with
        | nil => simp [joinWords, wordsTail, hws]
        | cons v vs => simp [joinWords, wordsTail, hws]
      · have htw : (c :: cs).takeWhile (fun d => !isSpace d) =
            c :: cs.takeWhile (fun d => !isSpace d) := by
          simp [List.takeWhile_cons, hb]
        have hdw : (c :: cs).dropWhile (fun d => !isSpace d) =
            cs.dropWhile (fun d => !isSpace d) := by
          simp [List.dropWhile_cons, hb]
        rw [rstrip_cons_nonspace cs hb, collapseWs_cons_nonspace _ hb, htw, hdw, ihP]
        simp

/-- Lowercasing never turns a character into whitespace or back. -/
theorem isSpace_pyLower (c : Char) : isSpace (pyLower c) = isSpace c := by
  unfold pyLower
  split <;> rfl

/-- `words` commutes with characterwise lowercasing. -/
theorem words_map_pyLower (l : List Char) :
    words (l.map pyLower) = (words l).map (fun w => w.map pyLower) := by
  induction l using words.induct with
  | case1 => simp [words_nil]
  | case2 c cs h ih =>
    rw [List.map_cons, words_cons_space _ (by rw [isSpace_pyLower]; exact h),
      words_cons_space cs h]
    exact ih
  | case3 c cs h ih =>
    have hb : isSpace c = false := by simpa using h
    have hbl : isSpace (pyLower c) = false := by rw [isSpace_pyLower]; exact hb
    have hpred : ((fun d => !isSpace d) ∘ pyLower) = (fun d => !isSpace d) := by
      funext d
      simp [Function.comp, isSpace_pyLower]
    rw [List.map_cons, words_cons_nonspace _ hbl, words_cons_nonspace cs hb,
      List.takeWhile_map, List.dropWhile_map, hpred, ih]
    simp

/-- The normalized text is exactly the single-space join of the lowercased
words of the input. -/
theorem normalize_text_eq_joinWords (t : List Char) :
    normalize_text t = joinWords ((words t).map (fun w => w.map pyLower)) := by
  have h := (collapse_strip_eq_joinWords (t.map pyLower)).1
  rw [normalize_text, pyStrip, h, words_map_pyLower]

/-! ### Shared helper lemmas for the handler models -/

theorem tableGet_tablePut_self {κ α : Type} [DecidableEq κ]
    (tbl : List (κ × α)) (k : κ) (v : α) :
    tableGet (tablePut tbl k v) k = some v := by
  simp [tableGet, tablePut, List.find?]

theorem length_rstrip_le (l : List Char) : (rstrip l).length ≤ l.length := by
  induction l with
  | nil => simp [rstrip]
  | cons c cs ih =>
    cases hr : rstrip cs with
    | nil => by_cases h : isSpace c <;> simp [rstrip, hr, h]
    | cons a as =>
      rw [hr] at ih
      simp only [rstrip, hr, List.length_cons] at ih ⊢
      omega

theorem length_lstrip_le (l : List Char) : (lstrip l).length ≤ l.length := by
  unfold lstrip
  induction l with
  | nil => simp [List.dropWhile]
  | cons a as ih =>
    by_cases h : isSpace a
    · simp only [List.dropWhile_cons, h, if_true, List.length_cons]
      exact Nat.le_succ_of_le ih
    · simp [List.dropWhile_cons, h]

theorem length_pyStrip_le (l : List Char) : (pyStrip l).length ≤ l.length :=
  le_trans (length_rstrip_le _) (length_lstrip_le l)

/-- A successful async parse yields the stripped raw text, whose length is
within the async ceiling. -/
theorem parseAsync_ok (rawText : List Char) (source_id : Option String)
    (options : Option (List (String × PyVal))) (req : AsyncRequest)
    (hp : parseAsyncRequest rawText source_id options = .ok req) :
    req.text = pyStrip rawText ∧
    req.text.length ≤ MAX_TEXT_LENGTH_ASYNC := by
  unfold parseAsyncRequest at hp
  by_cases h1 : rawText.length > MAX_TEXT_LENGTH_ASYNC
  · rw [if_pos h1] at hp
    exact absurd hp (fun h => Except.noConfusion h)
  · rw [if_neg h1] at hp
    by_cases h2 : (pyStrip rawText).isEmpty = true
    · rw [if_pos h2] at hp
      exact absurd hp (fun h => Except.noConfusion h)
    · rw [if_neg h2] at hp
      cases hp
      exact ⟨rfl, le_trans (length_pyStrip_le rawText) (Nat.not_lt.mp h1)⟩

/-! ### Claim theorems -/

/-- C1: the cache key derivation is insensitive to letter case and to
leading, trailing and repeated whitespace: any two texts whose
whitespace-delimited words agree up to letter case (the formalization of
"differ only in letter case or in leading/trailing/repeated whitespace")
produce the same SHA-256 fingerprint, so a store of one is addressed by a
lookup of the other. -/
theorem C1_fingerprint_case_whitespace_invariant (t1 t2 : List Char)
    (h : (words t1).map (fun w => w.map pyLower) =
      (words t2).map (fun w => w.map pyLower)) :
    generate_cache_key t1 = generate_cache_key t2 := by
  unfold generate_cache_key
  rw [normalize_text_eq_joinWords, normalize_text_eq_joinWords, h]

/-- C1 witness: `"I LOVE THIS!  "` and `"I love this!"` (Scenario C's pair)
have the same words up to case, hence the same cache key. -/
theorem C1_witness :
    ((words ['I', ' ', 'L', 'O', 'V', 'E', ' ', 'T', 'H', 'I', 'S', '!', ' ', ' ']).map
        (fun w => w.map pyLower) =
      (words ['I', ' ', 'l', 'o', 'v', 'e', ' ', 't', 'h', 'i', 's', '!']).map
        (fun w => w.map pyLower)) ∧
    generate_cache_key
        ['I', ' ', 'L', 'O', 'V', 'E', ' ', 'T', 'H', 'I', 'S', '!', ' ', ' '] =
      generate_cache_key ['I', ' ', 'l', 'o', 'v', 'e', ' ', 't', 'h', 'i', 's', '!'] := by
  have h : (words ['I', ' ', 'L', 'O', 'V', 'E', ' ', 'T', 'H', 'I', 'S', '!', ' ', ' ']).map
        (fun w => w.map pyLower) =
      (words ['I', ' ', 'l', 'o', 'v', 'e', ' ', 't', 'h', 'i', 's', '!']).map
        (fun w => w.map pyLower) := by
    simp [words_cons_space, words_cons_nonspace, words_nil, isSpace, pyLower,
      List.takeWhile, List.dropWhile]
  exact ⟨h, C1_fingerprint_case_whitespace_invariant _ _ h⟩

/-- C2 counterexample: an entry stored with `ttl = 0` at time 100 is still
returned by a lookup at time 101 — `ttl or CACHE_TTL_DEFAULT` coerces the
zero TTL to the 24-hour default, so the entry is not logically absent. -/
theorem C2_counterexample :
    get_cached_result
        (store_result [] false ['a'] (.bool true) (some 0) 100).1
        false ['a'] 101 = some (.bool true) ∧
    get_cached_result
        (store_result [] false ['a'] (.bool true) (some 0) 100).1
        false ['a'] 101 ≠ none := by
  have h : get_cached_result
      (store_result [] false ['a'] (.bool true) (some 0) 100).1
      false ['a'] 101 = some (.bool true) := by
    simp [store_result, get_cached_result, get_cached_result_body, tablePut,
      tableGet, ttlSeconds, is_expired, CACHE_TTL_DEFAULT, List.find?]
  refine ⟨h, ?_⟩
  rw [h]
  exact fun hc => Option.noConfusion hc

/-- C2 (amended): an entry whose stored expiry instant lies strictly in the
past is logically absent on the next lookup; but `store_result` with
`ttl = 0` does not produce such an entry — the zero TTL falls back to the
86400-second default, so the written expiry is `now + CACHE_TTL_DEFAULT`. -/
theorem C2_expiry_semantics (tbl : CacheTable) (text : List Char) (r : PyVal)
    (ttl : Option Nat) (item : CacheItem) (now now2 t : Nat)
    (hit : tableGet tbl (generate_cache_key text) = some item)
    (httl : item.ttl = some t) (hpast : t < now) :
    get_cached_result tbl false text now = none ∧
    tableGet (store_result tbl false text r ttl now2).1
        (generate_cache_key text) =
      some { sentiment_result := r, created_at := now2,
             ttl := some (now2 + ttlSeconds ttl) } ∧
    ttlSeconds (some 0) = CACHE_TTL_DEFAULT := by
  refine ⟨?_, ?_, rfl⟩
  · simp [get_cached_result, get_cached_result_body, hit, is_expired, httl,
      hpast]
  · simp [store_result, tableGet_tablePut_self]

/-- C2 witness: a table containing an entry for `"a"` expired at 5, read at
time 6, plus a fresh zero-TTL store at time 0. -/
theorem C2_witness :
    (tableGet [(generate_cache_key ['a'],
        ({ sentiment_result := .bool true, created_at := 0,
           ttl := some 5 } : CacheItem))] (generate_cache_key ['a']) =
      some { sentiment_result := .bool true, created_at := 0, ttl := some 5 }) ∧
    (5 : Nat) < 6 ∧
    (get_cached_result [(generate_cache_key ['a'],
        ({ sentiment_result := .bool true, created_at := 0,
           ttl := some 5 } : CacheItem))] false ['a'] 6 = none ∧
     tableGet (store_result [(generate_cache_key ['a'],
        ({ sentiment_result := .bool true, created_at := 0,
           ttl := some 5 } : CacheItem))] false ['a'] (.bool true) (some 0) 0).1
        (generate_cache_key ['a']) =
      some { sentiment_result := .bool true, created_at := 0,
             ttl := some (0 + ttlSeconds (some 0)) } ∧
     ttlSeconds (some 0) = CACHE_TTL_DEFAULT) := by
  have hit : tableGet [(generate_cache_key ['a'],
      ({ sentiment_result := .bool true, created_at := 0,
         ttl := some 5 } : CacheItem))] (generate_cache_key ['a']) =
      some { sentiment_result := .bool true, created_at := 0, ttl := some 5 } := by
    simp [tableGet, List.find?]
  exact ⟨hit, by decide,
    C2_expiry_semantics _ ['a'] (.bool true) (some 0) _ 6 0 5 hit rfl (by decide)⟩

/-- C3: cache failures never fail the caller: when the backing store raises
during the read, `get_cached_result` returns `None`; when it raises during
the write, `store_result` returns `false` and the table is unchanged. -/
theorem C3_cache_fail_open (tbl : CacheTable) (text : List Char) (r : PyVal)
    (ttl : Option Nat) (now : Nat) :
    get_cached_result tbl true text now = none ∧
    (store_result tbl true text r ttl now).2 = false ∧
    (store_result tbl true text r ttl now).1 = tbl :=
  ⟨rfl, rfl, rfl⟩

/-- C4 counterexample: a job stored as COMPLETED is moved back to
PROCESSING by a later `update_status` call — the stored status is simply
overwritten, so terminal states are not absorbing. -/
theorem C4_counterexample :
    ((tableGet (update_job_status
        [("j", { status := some "COMPLETED", completed_at := some 6 })]
        false "j" "PROCESSING" none none 7).1 "j").map JobItem.status) =
      some (some "PROCESSING") ∧
    ((tableGet (update_job_status
        [("j", { status := some "COMPLETED", completed_at := some 6 })]
        false "j" "PROCESSING" none none 7).1 "j").map JobItem.status) ≠
      some (some "COMPLETED") := by
  constructor
  · rfl
  · have h1 : ((tableGet (update_job_status
        [("j", { status := some "COMPLETED", completed_at := some 6 })]
        false "j" "PROCESSING" none none 7).1 "j").map JobItem.status) =
      some (some "PROCESSING") := rfl
    rw [h1]
    simp

/-- C4 (amended): `_update_job_status` provides no terminal-state guard: a
successful update stores exactly the requested status, whatever the prior
stored status was (including moving COMPLETED or FAILED back to
PROCESSING); terminal absorption is a caller convention, not enforced
here. -/
theorem C4_status_overwritten_unconditionally (tbl : JobTable)
    (jid st : String) (r e : Option PyVal) (now : Nat) :
    ((tableGet (update_job_status tbl false jid st r e now).1 jid).map
      JobItem.status) = some (some st) := by
  unfold update_job_status
  by_cases hr : optTruthy r <;> by_cases he : optTruthy e <;>
    simp [hr, he, tableGet_tablePut_self]

/-- C5 counterexample: failing a PROCESSING job (`status = FAILED`, an
error payload, no result) stores the error and the terminal status but
leaves `completed_at` unset — the claim that every terminal update sets
`completed_at` is false. -/
theorem C5_counterexample :
    ((tableGet (update_job_status
        [("j", { status := some "PROCESSING", created_at := some 1 })]
        false "j" "FAILED" none
        (some (.dict [("error", .str ['b', 'o', 'o', 'm'])])) 9).1 "j").map
      JobItem.completed_at) = some none ∧
    ((tableGet (update_job_status
        [("j", { status := some "PROCESSING", created_at := some 1 })]
        false "j" "FAILED" none
        (some (.dict [("error", .str ['b', 'o', 'o', 'm'])])) 9).1 "j").map
      JobItem.status) = some (some "FAILED") ∧
    ((tableGet (update_job_status
        [("j", { status := some "PROCESSING", created_at := some 1 })]
        false "j" "FAILED" none
        (some (.dict [("error", .str ['b', 'o', 'o', 'm'])])) 9).1 "j").map
      JobItem.error) = some (some (.dict [("error", .str ['b', 'o', 'o', 'm'])])) :=
  ⟨rfl, rfl, rfl⟩

/-- C5 (amended): `_update_job_status` sets `completed_at` exactly when a
truthy `result` is supplied; the fail transition (FAILED with an error and
no result) sets `error`, `status` and `updated_at` but leaves
`completed_at` at its prior value, so a FAILED job keeps `completed_at`
unset. -/
theorem C5_completed_at_requires_result (tbl : JobTable) (jid st : String)
    (r e : Option PyVal) (now : Nat) :
    ((tableGet (update_job_status tbl false jid st r e now).1 jid).map
        JobItem.completed_at) =
      some (if optTruthy r then some now
        else ((tableGet tbl jid).getD {}).completed_at) ∧
    ((tableGet (update_job_status tbl false jid st r e now).1 jid).map
      JobItem.updated_at) = some (some now) ∧
    ((tableGet (update_job_status tbl false jid st r e now).1 jid).map
        JobItem.error) =
      some (if optTruthy e then e else ((tableGet tbl jid).getD {}).error) ∧
    ((tableGet (update_job_status tbl false jid st r e now).1 jid).map
        JobItem.result) =
      some (if optTruthy r then r else ((tableGet tbl jid).getD {}).result) := by
  unfold update_job_status
  by_cases hr : optTruthy r <;> by_cases he : optTruthy e <;>
    simp [hr, he, tableGet_tablePut_self]

/-- C6: when the job-record write succeeds and the document write raises,
the admission returns the internal error (500, `INTERNAL_ERROR`, no job id
in the body), never reaches the workflow trigger, writes no document, and
leaves the already-written job record behind in PROCESSING. -/
theorem C6_document_failure_leaves_dangling_job (w : World)
    (rawText : List Char) (source_id : Option String)
    (options : Option (List (String × PyVal))) (req : AsyncRequest)
    (job_id request_id : String) (now : Nat)
    (hp : parseAsyncRequest rawText source_id options = .ok req) :
    (async_lambda_handler w ⟨false, true, false⟩ rawText source_id options
        true job_id request_id now).2.statusCode = 500 ∧
    (async_lambda_handler w ⟨false, true, false⟩ rawText source_id options
        true job_id request_id now).2.error_code = some "INTERNAL_ERROR" ∧
    (async_lambda_handler w ⟨false, true, false⟩ rawText source_id options
        true job_id request_id now).2.body_job_id = none ∧
    (async_lambda_handler w ⟨false, true, false⟩ rawText source_id options
        true job_id request_id now).1.executions = w.executions ∧
    (async_lambda_handler w ⟨false, true, false⟩ rawText source_id options
        true job_id request_id now).1.documents = w.documents ∧
    tableGet (async_lambda_handler w ⟨false, true, false⟩ rawText source_id
        options true job_id request_id now).1.jobTable job_id =
      some (admissionJobItem job_id req request_id now) ∧
    (admissionJobItem job_id req request_id now).status = some "PROCESSING" := by
  obtain ⟨htext, hlen⟩ := parseAsync_ok rawText source_id options req hp
  have hgt : ¬ req.text.length > MAX_TEXT_LENGTH_ASYNC := Nat.not_lt.mpr hlen
  simp only [async_lambda_handler, hp, Bool.not_true, Bool.false_eq_true,
    if_false, hgt, if_neg, store_job, store_document, start_step_function,
    internalError, validationError]
  simp [store_job, hgt, tableGet_tablePut_self, admissionJobItem]

/-- C6 witness: empty world, the two-character text `"hi"`, a concrete job
id; the document write raises. -/
theorem C6_witness :
    (parseAsyncRequest ['h', 'i'] none none =
      .ok { text := ['h', 'i'], source_id := none, options := none }) ∧
    ((async_lambda_handler ⟨[], [], []⟩ ⟨false, true, false⟩ ['h', 'i'] none
        none true "j1" "r1" 0).2.statusCode = 500 ∧
     (async_lambda_handler ⟨[], [], []⟩ ⟨false, true, false⟩ ['h', 'i'] none
        none true "j1" "r1" 0).2.error_code = some "INTERNAL_ERROR" ∧
     (async_lambda_handler ⟨[], [], []⟩ ⟨false, true, false⟩ ['h', 'i'] none
        none true "j1" "r1" 0).2.body_job_id = none ∧
     (async_lambda_handler ⟨[], [], []⟩ ⟨false, true, false⟩ ['h', 'i'] none
        none true "j1" "r1" 0).1.executions = (⟨[], [], []⟩ : World).executions ∧
     (async_lambda_handler ⟨[], [], []⟩ ⟨false, true, false⟩ ['h', 'i'] none
        none true "j1" "r1" 0).1.documents = (⟨[], [], []⟩ : World).documents ∧
     tableGet (async_lambda_handler ⟨[], [], []⟩ ⟨false, true, false⟩
        ['h', 'i'] none none true "j1" "r1" 0).1.jobTable "j1" =
       some (admissionJobItem "j1"
         { text := ['h', 'i'], source_id := none, options := none } "r1" 0) ∧
     (admissionJobItem "j1"
        { text := ['h', 'i'], source_id := none, options := none } "r1"
        0).status = some "PROCESSING") :=
  ⟨rfl, C6_document_failure_leaves_dangling_job ⟨[], [], []⟩ ['h', 'i'] none
    none { text := ['h', 'i'], source_id := none, options := none } "j1" "r1"
    0 rfl⟩

/-- C7: an async admission whose raw text exceeds 1,048,576 characters is
rejected by the request model's `max_length` constraint before any external
call: the handler returns the validation error unchanged-world pair, so no
job-store, document-store or workflow write is attempted and no job id is
returned. -/
theorem C7_oversize_text_rejected_before_writes (w : World)
    (f : AsyncFailures) (rawText : List Char) (source_id : Option String)
    (options : Option (List (String × PyVal))) (secSafe : Bool)
    (job_id request_id : String) (now : Nat)
    (h : rawText.length > MAX_TEXT_LENGTH_ASYNC) :
    async_lambda_handler w f rawText source_id options secSafe job_id
        request_id now = (w, validationError "Invalid request data") ∧
    (validationError "Invalid request data").statusCode = 400 ∧
    (validationError "Invalid request data").error_code =
      some "VALIDATION_ERROR" ∧
    (validationError "Invalid request data").body_job_id = none := by
  refine ⟨?_, rfl, rfl, rfl⟩
  unfold async_lambda_handler parseAsyncRequest
  rw [if_pos h]

/-- C7 witness: a text of exactly 1,048,577 characters. -/
theorem C7_witness :
    (List.replicate 1048577 'a').length > MAX_TEXT_LENGTH_ASYNC ∧
    async_lambda_handler ⟨[], [], []⟩ ⟨false, false, false⟩
        (List.replicate 1048577 'a') none none true "j1" "r1" 0 =
      (⟨[], [], []⟩, validationError "Invalid request data") := by
  have h : (List.replicate 1048577 'a').length > MAX_TEXT_LENGTH_ASYNC := by
    rw [List.length_replicate]
    decide
  exact ⟨h, (C7_oversize_text_rejected_before_writes ⟨[], [], []⟩
    ⟨false, false, false⟩ (List.replicate 1048577 'a') none none true "j1"
    "r1" 0 h).1⟩

/-- C8 counterexample: the status query for the literal id
`"nonexistent-id"` is rejected by the UUID format validation with the
`VALIDATION_ERROR` response, not the `NOT_FOUND` one the claim promises. -/
theorem C8_counterexample :
    status_lambda_handler [] false (some "nonexistent-id") =
      validationError "Invalid job ID format" ∧
    status_lambda_handler [] false (some "nonexistent-id") ≠
      notFoundError "Job not found" := by
  refine ⟨rfl, ?_⟩
  intro hc
  have h1 : status_lambda_handler [] false (some "nonexistent-id") =
      validationError "Invalid job ID format" := rfl
  rw [h1] at hc
  have h2 := congrArg ApiResponse.statusCode hc
  simp [validationError, notFoundError] at h2

/-- C8 (amended): a status query for a well-formed (UUID-format) id with no
stored record yields the NOT_FOUND response, and that response is distinct
from the VALIDATION_ERROR used for malformed ids such as
`"nonexistent-id"`, which never reach the store read. -/
theorem C8_not_found_for_unknown_wellformed_id (tbl : JobTable)
    (jid : String) (hval : validate_job_id jid.toList = true)
    (hne : jid.isEmpty = false) (habs : tableGet tbl jid = none) :
    status_lambda_handler tbl false (some jid) =
      notFoundError "Job not found" ∧
    (notFoundError "Job not found").statusCode ≠
      (validationError "Invalid job ID format").statusCode ∧
    (notFoundError "Job not found").error_code ≠
      (validationError "Invalid job ID format").error_code := by
  have hval2 : validate_job_id jid.data = true := hval
  refine ⟨?_, by decide, by simp [notFoundError, validationError]⟩
  simp [status_lambda_handler, hne, hval, hval2, get_job_status, habs]

/-- C8 witness: the unknown but well-formed id
`"123e4567-e89b-12d3-a456-426614174000"` against the empty job table. -/
theorem C8_witness :
    (validate_job_id "123e4567-e89b-12d3-a456-426614174000".toList = true) ∧
    ("123e4567-e89b-12d3-a456-426614174000" : String).isEmpty = false ∧
    tableGet ([] : JobTable) "123e4567-e89b-12d3-a456-426614174000" = none ∧
    status_lambda_handler [] false
        (some "123e4567-e89b-12d3-a456-426614174000") =
      notFoundError "Job not found" :=
  ⟨by decide, by decide, rfl,
    (C8_not_found_for_unknown_wellformed_id []
      "123e4567-e89b-12d3-a456-426614174000" (by decide) (by decide) rfl).1⟩

/-- C9 counterexample: a cache-miss sync request with no options object at
all (`options = None`) skips PII detection entirely — the PII call never
happens and `pii_detected` is reported `false` even though the detector
(injected here as returning `true`) would have flagged PII.  The claimed
default-on behavior only holds when an options object is present. -/
theorem C9_counterexample :
    (sync_lambda_handler [] false false ['h', 'i'] none true true
        (.bool true) 0).response.pii_detected = some false ∧
    SyncEvent.piiCall ∉
      (sync_lambda_handler [] false false ['h', 'i'] none true true
        (.bool true) 0).events := by
  exact ⟨rfl, by decide⟩

/-- C9 (amended): on a sync cache miss the PII gate is
`options and options.get("include_pii_detection", True)`: PII detection
runs exactly when the request carries a non-empty options dict that does
not set the option to a falsy value (so it defaults to on only in that
case, and is skipped when options is absent or empty); when it runs it runs
before the sentiment call, and `pii_detected` reflects the detector's
result gated by that condition. -/
theorem C9_pii_gate_requires_options (tbl : CacheTable)
    (getRaises storeRaises : Bool) (rawText text : List Char)
    (options opts : Option (List (String × PyVal))) (piiDetected : Bool)
    (sentimentResult : PyVal) (now : Nat)
    (hp : parseSyncRequest rawText options = .ok (text, opts))
    (hm : optTruthy (get_cached_result tbl getRaises text now) = false) :
    (sync_lambda_handler tbl getRaises storeRaises rawText options true
        piiDetected sentimentResult now).response.pii_detected =
      some (runPiiGate opts && piiDetected) ∧
    (sync_lambda_handler tbl getRaises storeRaises rawText options true
        piiDetected sentimentResult now).events =
      [SyncEvent.cacheGet] ++
        (if runPiiGate opts then [SyncEvent.piiCall] else []) ++
        [SyncEvent.sentimentCall, SyncEvent.cacheStore] ∧
    runPiiGate none = false ∧
    runPiiGate (some []) = false := by
  refine ⟨?_, ?_, rfl, rfl⟩ <;>
    simp [sync_lambda_handler, hp, hm, sync_miss_path]

/-- C9 witness: options present without the `include_pii_detection` key
(the gate defaults on) against an empty cache. -/
theorem C9_witness :
    (parseSyncRequest ['h', 'i'] (some [("language_code", .str ['e', 'n'])]) =
      .ok (['h', 'i'], some [("language_code", .str ['e', 'n'])])) ∧
    optTruthy (get_cached_result [] false ['h', 'i'] 0) = false ∧
    (sync_lambda_handler [] false false ['h', 'i']
        (some [("language_code", .str ['e', 'n'])]) true true
        (.bool true) 0).response.pii_detected =
      some (runPiiGate (some [("language_code", .str ['e', 'n'])]) && true) ∧
    runPiiGate (some [("language_code", .str ['e', 'n'])]) = true := by
  have hp : parseSyncRequest ['h', 'i']
      (some [("language_code", .str ['e', 'n'])]) =
      .ok (['h', 'i'], some [("language_code", .str ['e', 'n'])]) := rfl
  have hm : optTruthy (get_cached_result [] false ['h', 'i'] 0) = false := rfl
  exact ⟨hp, hm,
    (C9_pii_gate_requires_options [] false false ['h', 'i'] ['h', 'i']
      (some [("language_code", .str ['e', 'n'])])
      (some [("language_code", .str ['e', 'n'])]) true (.bool true) 0 hp
      hm).1, rfl⟩

/-- C10: when the job-store read raises during a status query for a
well-formed id, `_get_job_status` swallows the exception into `None`, so
the handler returns exactly the NOT_FOUND response it returns for an
absent job — a backing-store outage is indistinguishable from a missing
job at this endpoint. -/
theorem C10_raising_read_masked_as_not_found (tbl tbl2 : JobTable)
    (jid : String) (hval : validate_job_id jid.toList = true)
    (hne : jid.isEmpty = false) (habs : tableGet tbl2 jid = none) :
    status_lambda_handler tbl true (some jid) =
      notFoundError "Job not found" ∧
    status_lambda_handler tbl true (some jid) =
      status_lambda_handler tbl2 false (some jid) := by
  have hval2 : validate_job_id jid.data = true := hval
  have h1 : status_lambda_handler tbl true (some jid) =
      notFoundError "Job not found" := by
    simp [status_lambda_handler, hne, hval, hval2, get_job_status]
  have h2 : status_lambda_handler tbl2 false (some jid) =
      notFoundError "Job not found" := by
    simp [status_lambda_handler, hne, hval, hval2, get_job_status, habs]
  exact ⟨h1, h1.trans h2.symm⟩

/-- C10 witness: the job exists in the store (COMPLETED), yet the raising
read makes the status endpoint answer NOT_FOUND, identically to the empty
store. -/
theorem C10_witness :
    (validate_job_id "123e4567-e89b-12d3-a456-426614174000".toList = true) ∧
    ("123e4567-e89b-12d3-a456-426614174000" : String).isEmpty = false ∧
    tableGet ([] : JobTable) "123e4567-e89b-12d3-a456-426614174000" = none ∧
    status_lambda_handler
        [("123e4567-e89b-12d3-a456-426614174000",
          { status := some "COMPLETED", created_at := some 1 })] true
        (some "123e4567-e89b-12d3-a456-426614174000") =
      notFoundError "Job not found" :=
  ⟨by decide, by decide, rfl,
    (C10_raising_read_masked_as_not_found
      [("123e4567-e89b-12d3-a456-426614174000",
        { status := some "COMPLETED", created_at := some 1 })] []
      "123e4567-e89b-12d3-a456-426614174000" (by decide) (by decide) rfl).1⟩

end AuraStream
